import Mathlib

/-!
# Verification of the Neriah map component

Shallow embedding of the `MapInterface` React component (the Location & Route
Orchestrator of the repository), together with theorems settling the frozen
claims about it.  Every definition is translated from the TypeScript source;
doc comments name the source symbol each definition embeds.

Numbers that are JavaScript `number` values are modelled as rationals `ℚ`;
machine strings are Lean `String`s.
-/

namespace Neriah

/-! ## Data model

The community-route record, from the `RouteType` type alias of the source:
`{ id: string; name: string; description: string;
   coordinates: [number, number][]; ratings: number[] }`. -/

/-- The `RouteType` record of the component: a user-authored community route.
Coordinates are `[longitude, latitude]` pairs. -/
structure RouteType where
  id : String
  name : String
  description : String
  coordinates : List (ℚ × ℚ)
  ratings : List ℚ
deriving DecidableEq, Repr

/-- The `TravelMode` union type of the source: `'car' | 'bike' | 'foot'`. -/
inductive TravelMode where
  | car
  | bike
  | foot
deriving DecidableEq, Repr

/-! ## JSON values and the community-route store

The store is the pair of call sites
`localStorage.getItem('communityRoutes')` / `JSON.parse` (the `useState`
initializer) and `localStorage.setItem('communityRoutes',
JSON.stringify(communityRoutes))` (the persistence `useEffect`).
`JSON.parse` and `JSON.stringify` are host builtins; they are modelled at the
level of the JSON value a stored string parses to.  A stored string is
identified with its parse outcome: `StoredString.json j` stands for any
string that parses to the JSON value `j` (in particular the output of
`JSON.stringify` on `j`), `StoredString.malformed` for a non-empty string
that is not valid JSON (on which `JSON.parse` throws), and
`StoredString.empty` for the empty string (which is falsy in the
initializer's conditional). -/

/-- JSON values, the results of a successful `JSON.parse`. -/
inductive Json where
  | null
  | bool (b : Bool)
  | num (q : ℚ)
  | str (s : String)
  | arr (elems : List Json)
  | obj (fields : List (String × Json))

/-- A value held by `localStorage` under the `'communityRoutes'` key,
identified with its parse outcome (see the section comment). -/
inductive StoredString where
  | empty
  | malformed
  | json (j : Json)

/-- What `JSON.stringify` emits for one `RouteType` coordinate pair. -/
def encodeCoord (c : ℚ × ℚ) : Json :=
  .arr [.num c.1, .num c.2]

/-- What `JSON.stringify` emits for one `RouteType` record; field order is
the insertion order of the object literal in `handleSaveRoute`. -/
def encodeRoute (r : RouteType) : Json :=
  .obj [("id", .str r.id), ("name", .str r.name),
        ("description", .str r.description),
        ("coordinates", .arr (r.coordinates.map encodeCoord)),
        ("ratings", .arr (r.ratings.map Json.num))]

/-- What `JSON.stringify` emits for the whole community-route collection. -/
def encodeRoutes (rs : List RouteType) : Json :=
  .arr (rs.map encodeRoute)

/-- Decode a list of JSON values element by element, failing if any element
fails.  Reading a parsed JSON value back as typed data. -/
def decodeList {α : Type} (f : Json → Option α) : List Json → Option (List α)
  | [] => some []
  | x :: xs => do
      let a ← f x
      let as ← decodeList f xs
      some (a :: as)

/-- View a JSON value as a coordinate pair. -/
def decodeCoord : Json → Option (ℚ × ℚ)
  | .arr [.num a, .num b] => some (a, b)
  | _ => none

/-- View a JSON value as a number. -/
def decodeNum : Json → Option ℚ
  | .num q => some q
  | _ => none

/-- View a JSON value as a `RouteType` record.  The component performs no
runtime validation — the parsed value is used as a `RouteType[]` directly —
so this is the shape under which the parsed value is the record. -/
def decodeRoute : Json → Option RouteType
  | .obj [("id", .str i), ("name", .str n), ("description", .str d),
          ("coordinates", .arr cs), ("ratings", .arr ts)] => do
      let coords ← decodeList decodeCoord cs
      let ratings ← decodeList decodeNum ts
      some { id := i, name := n, description := d,
             coordinates := coords, ratings := ratings }
  | _ => none

/-- View a JSON value as the community-route collection. -/
def decodeRoutes : Json → Option (List RouteType)
  | .arr xs => decodeList decodeRoute xs
  | _ => none

/-- The store's save operation: the persistence `useEffect` writes
`JSON.stringify(communityRoutes)` under the `'communityRoutes'` key. -/
def saveStore (rs : List RouteType) : StoredString :=
  .json (encodeRoutes rs)

/-- The store's load operation: the `communityRoutes` `useState` initializer
`saved ? JSON.parse(saved) : []`.  `getItem` returns `none` when no record
exists; a present empty string is falsy, so both yield the literal `[]`.
A malformed non-empty string makes `JSON.parse` throw, modelled as
`Except.error`.  Otherwise the parsed JSON value is returned unchecked. -/
def loadStore : Option StoredString → Except Unit Json
  | none => .ok (.arr [])
  | some .empty => .ok (.arr [])
  | some .malformed => .error ()
  | some (.json j) => .ok j

/-- A community route the authoring flow can actually create: non-empty name
and at least two coordinates (the data-model invariant of the spec). -/
def RouteType.Valid (r : RouteType) : Prop :=
  r.name ≠ "" ∧ 2 ≤ r.coordinates.length

/-! ### Round-trip lemmas for the store -/

/-- Decoding a list of encoded elements recovers the list. -/
theorem decodeList_map {α : Type} (f : Json → Option α) (g : α → Json)
    (h : ∀ a, f (g a) = some a) :
    ∀ l : List α, decodeList f (l.map g) = some l := by
  intro l
  induction l with
  | nil => rfl
  | cons x xs ih => simp [decodeList, h, ih]

/-- Decoding an encoded route recovers the route. -/
theorem decodeRoute_encodeRoute (r : RouteType) :
    decodeRoute (encodeRoute r) = some r := by
  simp [decodeRoute, encodeRoute,
    decodeList_map decodeCoord encodeCoord (fun c => rfl),
    decodeList_map decodeNum Json.num (fun q => rfl)]

/-- Decoding an encoded collection recovers the collection. -/
theorem decodeRoutes_encodeRoutes (rs : List RouteType) :
    decodeRoutes (encodeRoutes rs) = some rs := by
  simp [decodeRoutes, encodeRoutes,
    decodeList_map decodeRoute encodeRoute decodeRoute_encodeRoute]

/-! ## Claims C1 and C4: the store -/

/-- Claim C1, counterexample.  The claim states that `load` returns the empty
sequence, without raising any exception to the caller, whenever the stored
data is malformed.  On a stored non-empty string that is not valid JSON,
`JSON.parse(saved)` throws: `load` propagates an exception and in particular
does not return the empty collection. -/
theorem loadStore_malformed_raises :
    loadStore (some .malformed) = .error () ∧
      loadStore (some .malformed) ≠ .ok (Json.arr []) := by
  exact ⟨rfl, by simp [loadStore]⟩

/-- Claim C1, amended.  `load` returns the collection a stored value encodes,
and returns the empty sequence when no prior record exists (or the record is
the empty string); but on malformed non-empty data the parse error
propagates to the caller instead of yielding the empty sequence. -/
theorem loadStore_spec :
    (∀ rs : List RouteType,
        loadStore (some (saveStore rs)) = .ok (encodeRoutes rs) ∧
        decodeRoutes (encodeRoutes rs) = some rs) ∧
    loadStore none = .ok (Json.arr []) ∧
    decodeRoutes (Json.arr []) = some ([] : List RouteType) ∧
    loadStore (some .empty) = .ok (Json.arr []) ∧
    loadStore (some .malformed) = .error () := by
  refine ⟨fun rs => ⟨rfl, decodeRoutes_encodeRoutes rs⟩, rfl, rfl, rfl, rfl⟩

/-- Claim C4.  Saving any sequence of valid community routes through the
store and reloading yields exactly the same routes, field for field, in the
same order. -/
theorem store_round_trip (rs : List RouteType)
    (h : ∀ r ∈ rs, r.Valid) :
    (loadStore (some (saveStore rs))).toOption.bind decodeRoutes = some rs := by
  simp [loadStore, saveStore, Except.toOption, decodeRoutes_encodeRoutes]

/-- Claim C4, witness: a concrete two-route collection survives the
round trip. -/
theorem store_round_trip_witness :
    (loadStore (some (saveStore
        [{ id := "1", name := "Ridge", description := "steep",
           coordinates := [(0, 0), (1, 1)], ratings := [4, 5] },
         { id := "2", name := "Lake loop", description := "",
           coordinates := [(2, 2), (3, 3), (4, 4)], ratings := [] }]))).toOption.bind
        decodeRoutes =
      some
        [{ id := "1", name := "Ridge", description := "steep",
           coordinates := [(0, 0), (1, 1)], ratings := [4, 5] },
         { id := "2", name := "Lake loop", description := "",
           coordinates := [(2, 2), (3, 3), (4, 4)], ratings := [] }] := by
  exact store_round_trip _ (by
    intro r hr
    simp only [List.mem_cons, List.mem_singleton] at hr
    rcases hr with h | h | h
    · subst h; exact ⟨by decide, by decide⟩
    · subst h; exact ⟨by decide, by decide⟩
    · cases h)

/-! ## Number formatting helpers -/

/-- JavaScript `Math.round`: the integer nearest its argument, ties rounding
toward positive infinity. -/
def jsRound (q : ℚ) : ℤ := ⌊q + 1 / 2⌋

/-- One fractional digit of `Number.prototype.toFixed(1)` on a non-negative
rounded value `n` of tenths: the digits before and after the decimal
point. -/
def toFixed1Nat (n : ℕ) : String :=
  s!"{n / 10}.{n % 10}"

/-- JavaScript `x.toFixed(1)`: choose the integer `n` with `n / 10` closest
to `x`, ties to the larger `n`; negative values are formatted on the
magnitude with a leading minus sign. -/
def toFixed1 (q : ℚ) : String :=
  if q < 0 then "-" ++ toFixed1Nat (jsRound (10 * -q)).toNat
  else toFixed1Nat (jsRound (10 * q)).toNat

/-- The `formatDuration` helper of the component: `undefined` or a falsy
(zero) second count renders as the `'--'` placeholder; otherwise the second
count is rounded to minutes, and sixty or more minutes render as
`'{h}h {m}m'`, fewer as `'{mins} min'`. -/
def formatDuration : Option ℚ → String
  | none => "--"
  | some seconds =>
      if seconds = 0 then "--"
      else
        let mins : ℤ := jsRound (seconds / 60)
        if 60 ≤ mins then
          let mn : ℕ := mins.toNat
          s!"{mn / 60}h {mn % 60}m"
        else
          s!"{mins} min"

/-- The community-list rating line of the component:
`route.ratings.length > 0 ? (route.ratings.reduce((a, b) => a + b, 0) /
route.ratings.length).toFixed(1) : 'No ratings yet'`. -/
def ratingDisplay (ratings : List ℚ) : String :=
  if 0 < ratings.length then
    toFixed1 (ratings.foldl (· + ·) 0 / (ratings.length : ℚ))
  else "No ratings yet"

/-- Evaluation rule for `jsRound` at a known value. -/
theorem jsRound_eq {q : ℚ} {z : ℤ} (h1 : (z : ℚ) ≤ q + 1 / 2)
    (h2 : q + 1 / 2 < z + 1) : jsRound q = z :=
  Int.floor_eq_iff.mpr ⟨h1, h2⟩

/-- Evaluation rule for `formatDuration` once the rounded minute count is
known. -/
theorem formatDuration_eval (d : ℚ) (m : ℤ) (hd : d ≠ 0)
    (hm : jsRound (d / 60) = m) :
    formatDuration (some d) =
      if 60 ≤ m then s!"{m.toNat / 60}h {m.toNat % 60}m" else s!"{m} min" := by
  simp only [formatDuration, if_neg hd, hm]

/-! ## Claim C5: duration formatting -/

/-- Claim C5, counterexample.  The claim states that every duration strictly
between 0 and 3600 seconds formats as `'{round(d/60)} min'`.  At `d = 3599`
the rounded minute count is 60, so the code takes the hour branch and
renders `'1h 0m'`, not `'60 min'`. -/
theorem formatDuration_3599 :
    (0 : ℚ) < 3599 ∧ (3599 : ℚ) < 3600 ∧
      jsRound ((3599 : ℚ) / 60) = 60 ∧
      formatDuration (some 3599) = "1h 0m" ∧
      formatDuration (some 3599) ≠ "60 min" := by
  have hj : jsRound ((3599 : ℚ) / 60) = 60 :=
    jsRound_eq (by norm_num) (by norm_num)
  have hv : formatDuration (some 3599) = "1h 0m" :=
    (formatDuration_eval 3599 60 (by norm_num) hj).trans (by decide)
  refine ⟨by norm_num, by norm_num, hj, hv, ?_⟩
  rw [hv]
  decide

/-- Claim C5, amended.  The branch is selected by the rounded minute count,
not by the raw second count: durations whose rounded minute count reaches 60
format as `'{h}h {m}m'` (this covers every `d ≥ 3600`, but also
`3570 ≤ d < 3600`), those below as `'{round(d/60)} min'`, and an absent or
zero duration as `'--'`. -/
theorem formatDuration_spec (d : ℚ) (hd : 0 < d) :
    (60 ≤ jsRound (d / 60) →
        formatDuration (some d) =
          s!"{(jsRound (d / 60)).toNat / 60}h {(jsRound (d / 60)).toNat % 60}m") ∧
    (jsRound (d / 60) < 60 →
        formatDuration (some d) = s!"{jsRound (d / 60)} min") ∧
    (3600 ≤ d → 60 ≤ jsRound (d / 60)) ∧
    formatDuration none = "--" ∧ formatDuration (some 0) = "--" := by
  have hne : d ≠ 0 := ne_of_gt hd
  refine ⟨?_, ?_, ?_, rfl, rfl⟩
  · intro h
    simp only [formatDuration, if_neg hne, if_pos h]
  · intro h
    simp only [formatDuration, if_neg hne, if_neg (not_le.mpr h)]
  · intro h
    have h60 : (60 : ℚ) ≤ d / 60 + 1 / 2 := by linarith
    exact_mod_cast Int.le_floor.mpr h60

/-- Claim C5, witness: the theorem applied at the spec's own example
`d = 3725`, whose rounded minute count is 62, rendering `'1h 2m'`. -/
theorem formatDuration_spec_witness :
    formatDuration (some 3725) = "1h 2m" := by
  have hj : jsRound ((3725 : ℚ) / 60) = 62 :=
    jsRound_eq (by norm_num) (by norm_num)
  have h60 : (60 : ℤ) ≤ jsRound ((3725 : ℚ) / 60) := by rw [hj]; decide
  refine ((formatDuration_spec 3725 (by norm_num)).1 h60).trans ?_
  rw [hj]
  decide

/-! ## Authoring, rating, and the community modal

The in-memory React state touched by the community-route flow, and the three
handlers plus the two modal `onClick` transitions that mutate it.  Toasts
are returned alongside the new state. -/

/-- A call to `toast({title, description, variant})`; `destructive` records
whether `variant: "destructive"` was passed. -/
structure Toast where
  title : String
  description : String
  destructive : Bool
deriving DecidableEq, Repr

/-- The component state the community-route flow reads and writes. -/
structure AppState where
  communityRoutes : List RouteType
  showCommunity : Bool
  creatingRoute : Bool
  newRouteCoords : List (ℚ × ℚ)
  newRouteName : String
  newRouteDesc : String
  selectedCommunityRoute : Option RouteType
  ratingInput : ℚ
deriving DecidableEq

/-- The `Create Route` button of the community modal:
`onClick={() => { setCreatingRoute(true); setShowCommunity(false); }}`. -/
def openCreateRoute (s : AppState) : AppState :=
  { s with creatingRoute := true, showCommunity := false }

/-- The close button of the create-route modal:
`onClick={() => { setCreatingRoute(false); setNewRouteCoords([]); }}`. -/
def cancelCreateRoute (s : AppState) : AppState :=
  { s with creatingRoute := false, newRouteCoords := [] }

/-- The map click handler installed while `creatingRoute` is set:
`setNewRouteCoords(coords => [...coords, [e.latlng.lng, e.latlng.lat]])`. -/
def authoringMapClick (c : ℚ × ℚ) (s : AppState) : AppState :=
  { s with newRouteCoords := s.newRouteCoords ++ [c] }

/-- The `handleSaveRoute` handler.  `now` is `Date.now().toString()`, the
freshly generated id. -/
def handleSaveRoute (now : String) (s : AppState) : AppState × List Toast :=
  if s.newRouteName = "" ∨ s.newRouteCoords.length < 2 then
    (s, [{ title := "Route creation",
           description := "Please add a name and at least two points.",
           destructive := true }])
  else
    ({ s with
        communityRoutes := s.communityRoutes ++
          [{ id := now, name := s.newRouteName, description := s.newRouteDesc,
             coordinates := s.newRouteCoords, ratings := [] }],
        creatingRoute := false, newRouteCoords := [],
        newRouteName := "", newRouteDesc := "" },
     [{ title := "Route saved!",
        description := "Your hiking route is now available to the community.",
        destructive := false }])

/-- The `handleRateRoute` handler. -/
def handleRateRoute (route : RouteType) (rating : ℚ) (s : AppState) :
    AppState × List Toast :=
  ({ s with
      communityRoutes := s.communityRoutes.map fun r =>
        if r.id = route.id then { r with ratings := r.ratings ++ [rating] }
        else r,
      selectedCommunityRoute := none, ratingInput := 0 },
   [{ title := "Thank you!",
      description := "Your rating has been submitted.",
      destructive := false }])

/-! ## Claim C2: save validation -/

/-- Claim C2.  Saving a draft with fewer than two coordinates or an empty
name leaves the whole component state — in particular the community
collection and the `creatingRoute` flag — exactly as it was, and emits the
destructive validation toast. -/
theorem handleSaveRoute_rejects (now : String) (s : AppState)
    (h : s.newRouteCoords.length < 2 ∨ s.newRouteName = "") :
    (handleSaveRoute now s).1 = s ∧
      (handleSaveRoute now s).1.communityRoutes = s.communityRoutes ∧
      (handleSaveRoute now s).1.creatingRoute = s.creatingRoute ∧
      (handleSaveRoute now s).2 =
        [{ title := "Route creation",
           description := "Please add a name and at least two points.",
           destructive := true }] := by
  have hc : s.newRouteName = "" ∨ s.newRouteCoords.length < 2 := h.symm
  simp [handleSaveRoute, if_pos hc]

/-- Claim C2, witness: a one-point draft in an active authoring session is
rejected, the collection stays empty, and the session stays active. -/
theorem handleSaveRoute_rejects_witness :
    (handleSaveRoute "1700000000000"
        { communityRoutes := [], showCommunity := false, creatingRoute := true,
          newRouteCoords := [(0, 0)], newRouteName := "Ridge",
          newRouteDesc := "", selectedCommunityRoute := none,
          ratingInput := 0 }).1 =
      { communityRoutes := [], showCommunity := false, creatingRoute := true,
        newRouteCoords := [(0, 0)], newRouteName := "Ridge",
        newRouteDesc := "", selectedCommunityRoute := none,
        ratingInput := 0 } := by
  exact (handleSaveRoute_rejects "1700000000000" _ (Or.inl (by decide))).1

/-! ## Claim C3: rating a route -/

/-- Evaluation rule for `toFixed1` at a known rounded value. -/
theorem toFixed1_eval (q : ℚ) (n : ℤ) (hq : ¬ q < 0)
    (hn : jsRound (10 * q) = n) : toFixed1 q = toFixed1Nat n.toNat := by
  simp only [toFixed1, if_neg hq, hn]

/-- Routes whose ids differ from the rated route's id pass through the
rating map unchanged. -/
theorem map_rate_ne (route : RouteType) (rating : ℚ) :
    ∀ l : List RouteType, (∀ r ∈ l, r.id ≠ route.id) →
      (l.map fun r =>
        if r.id = route.id then { r with ratings := r.ratings ++ [rating] }
        else r) = l := by
  intro l hl
  induction l with
  | nil => rfl
  | cons x xs ih =>
      have hx : x.id ≠ route.id := hl x (List.mem_cons_self x xs)
      have hxs : ∀ r ∈ xs, r.id ≠ route.id :=
        fun r hr => hl r (List.mem_cons_of_mem x hr)
      simp [if_neg hx, ih hxs]

/-- Claim C3, counterexample.  The claim names the empty-ratings sentinel as
the literal `"no ratings yet"`; the component renders `'No ratings yet'`
with a capital `N`, a different string. -/
theorem ratingDisplay_sentinel_case :
    ratingDisplay [] = "No ratings yet" ∧
      ("No ratings yet" : String) ≠ "no ratings yet" :=
  ⟨rfl, by decide⟩

/-- Claim C3, amended.  Rating the route with id X appends exactly the
submitted value at the end of X's ratings and leaves every other route —
assuming ids are unique, as the data model requires — literally unchanged;
the displayed average of a non-empty ratings sequence is the sum divided by
the count, rendered to one decimal place, and the empty sequence displays
the sentinel `'No ratings yet'` (capital N). -/
theorem handleRateRoute_frame (s : AppState) (pre post : List RouteType)
    (route : RouteType) (rating : ℚ)
    (hsplit : s.communityRoutes = pre ++ route :: post)
    (hpre : ∀ r ∈ pre, r.id ≠ route.id)
    (hpost : ∀ r ∈ post, r.id ≠ route.id) :
    (handleRateRoute route rating s).1.communityRoutes =
        pre ++ { route with ratings := route.ratings ++ [rating] } :: post ∧
      ratingDisplay (route.ratings ++ [rating]) =
        toFixed1 ((route.ratings ++ [rating]).sum /
          ((route.ratings ++ [rating]).length : ℚ)) ∧
      ratingDisplay [] = "No ratings yet" := by
  refine ⟨?_, ?_, rfl⟩
  · simp only [handleRateRoute, hsplit, List.map_append, List.map_cons,
      if_pos rfl, if_true, eq_self_iff_true,
      map_rate_ne route rating pre hpre,
      map_rate_ne route rating post hpost]
  · have hlen : 0 < (route.ratings ++ [rating]).length := by simp
    simp only [ratingDisplay, if_pos hlen, List.sum_eq_foldl]

/-- Claim C3, witness: rating the second of two concrete routes appends the
value 3 to it alone, and its displayed average becomes `'3.0'`. -/
theorem handleRateRoute_frame_witness :
    (handleRateRoute
        { id := "2", name := "B", description := "",
          coordinates := [(0, 0), (2, 2)], ratings := [] } 3
        { communityRoutes :=
            [{ id := "1", name := "A", description := "",
               coordinates := [(0, 0), (1, 1)], ratings := [4, 5] },
             { id := "2", name := "B", description := "",
               coordinates := [(0, 0), (2, 2)], ratings := [] }],
          showCommunity := false, creatingRoute := false,
          newRouteCoords := [], newRouteName := "", newRouteDesc := "",
          selectedCommunityRoute := none, ratingInput := 3 }).1.communityRoutes =
      [{ id := "1", name := "A", description := "",
         coordinates := [(0, 0), (1, 1)], ratings := [4, 5] },
       { id := "2", name := "B", description := "",
         coordinates := [(0, 0), (2, 2)], ratings := [3] }] ∧
      ratingDisplay [(3 : ℚ)] = "3.0" := by
  have h := handleRateRoute_frame
    { communityRoutes :=
        [{ id := "1", name := "A", description := "",
           coordinates := [(0, 0), (1, 1)], ratings := [4, 5] },
         { id := "2", name := "B", description := "",
           coordinates := [(0, 0), (2, 2)], ratings := [] }],
      showCommunity := false, creatingRoute := false,
      newRouteCoords := [], newRouteName := "", newRouteDesc := "",
      selectedCommunityRoute := none, ratingInput := 3 }
    [{ id := "1", name := "A", description := "",
       coordinates := [(0, 0), (1, 1)], ratings := [4, 5] }] []
    { id := "2", name := "B", description := "",
      coordinates := [(0, 0), (2, 2)], ratings := [] } 3 rfl
    (by intro r hr; simp only [List.mem_singleton] at hr; subst hr; decide)
    (by intro r hr; cases hr)
  refine ⟨h.1, ?_⟩
  have h1 : ratingDisplay [(3 : ℚ)] = toFixed1 3 := by
    have := h.2.1
    simpa using this
  have h2 : toFixed1 (3 : ℚ) = toFixed1Nat (30 : ℤ).toNat :=
    toFixed1_eval 3 30 (by norm_num) (jsRound_eq (by norm_num) (by norm_num))
  rw [h1, h2]
  decide

/-! ## Claim C8: authoring transitions -/

/-- Claim C8, counterexample.  Cancelling an authoring session with name
`'Ridge'` and description `'Steep'` clears only the coordinates: reopening
authoring shows the same name and description, so the cancelled draft is
observable in the next session, contradicting both halves of the claim. -/
theorem authoring_draft_leaks :
    (cancelCreateRoute
        { communityRoutes := [], showCommunity := false, creatingRoute := true,
          newRouteCoords := [(0, 0), (1, 1)], newRouteName := "Ridge",
          newRouteDesc := "Steep", selectedCommunityRoute := none,
          ratingInput := 0 }).newRouteName = "Ridge" ∧
      (openCreateRoute (cancelCreateRoute
        { communityRoutes := [], showCommunity := false, creatingRoute := true,
          newRouteCoords := [(0, 0), (1, 1)], newRouteName := "Ridge",
          newRouteDesc := "Steep", selectedCommunityRoute := none,
          ratingInput := 0 })).creatingRoute = true ∧
      (openCreateRoute (cancelCreateRoute
        { communityRoutes := [], showCommunity := false, creatingRoute := true,
          newRouteCoords := [(0, 0), (1, 1)], newRouteName := "Ridge",
          newRouteDesc := "Steep", selectedCommunityRoute := none,
          ratingInput := 0 })).newRouteName = "Ridge" ∧
      ("Ridge" : String) ≠ "" :=
  ⟨rfl, rfl, rfl, by decide⟩

/-- Claim C8, amended.  Opening authoring only raises the authoring flag and
closes the community modal: the prior draft's coordinates, name and
description are all preserved, not cleared.  Cancelling clears the
coordinates only and lowers the flag, preserving name and description,
which therefore remain observable in the next authoring session. -/
theorem authoring_transitions (s : AppState) :
    (openCreateRoute s).creatingRoute = true ∧
      (openCreateRoute s).newRouteCoords = s.newRouteCoords ∧
      (openCreateRoute s).newRouteName = s.newRouteName ∧
      (openCreateRoute s).newRouteDesc = s.newRouteDesc ∧
      (cancelCreateRoute s).creatingRoute = false ∧
      (cancelCreateRoute s).newRouteCoords = [] ∧
      (cancelCreateRoute s).newRouteName = s.newRouteName ∧
      (cancelCreateRoute s).newRouteDesc = s.newRouteDesc :=
  ⟨rfl, rfl, rfl, rfl, rfl, rfl, rfl, rfl⟩

/-! ## Route planning

Embedding of `handleRouteCalculation`.  The external calls it awaits — the
forward geocode of the destination and the per-mode OSRM route fetch — are
supplied as an environment of outcomes; the handler returns the new
component state together with the ordered trace of its observable steps
(requests issued, responses awaited, toasts, draws, and every
`setTravelTimes` publication). -/

/-- The `travelTimes` state of the component, the partial map
`{ [mode in TravelMode]?: number }` of seconds per mode. -/
structure Times where
  car : Option ℚ
  bike : Option ℚ
  foot : Option ℚ
deriving DecidableEq, Repr

/-- The empty duration table `{}`. -/
def Times.empty : Times := ⟨none, none, none⟩

/-- Look up one mode's entry of the duration table. -/
def Times.get (t : Times) : TravelMode → Option ℚ
  | .car => t.car
  | .bike => t.bike
  | .foot => t.foot

/-- The assignment `times[m] = d`. -/
def Times.set (t : Times) (m : TravelMode) (d : ℚ) : Times :=
  match m with
  | .car => { t with car := some d }
  | .bike => { t with bike := some d }
  | .foot => { t with foot := some d }

/-- One route of an OSRM response: `duration` in seconds and the GeoJSON
`geometry.coordinates`, a list of `[longitude, latitude]` pairs. -/
structure OsrmRoute where
  duration : ℚ
  geometry : List (ℚ × ℚ)
deriving DecidableEq, Repr

/-- Outcomes of the external calls one invocation of
`handleRouteCalculation` awaits: the forward geocode of the destination text
(`none` = no candidate), and the per-mode route fetch (`none` = the fetch
threw, which the `catch` swallows, or the response carried no routes; both
leave that mode absent). -/
structure RouteEnv where
  geocodeResult : Option (ℚ × ℚ)
  fetch : TravelMode → Option OsrmRoute

/-- The component state `handleRouteCalculation` reads and writes. -/
structure NavState where
  userLocation : Option (ℚ × ℚ)
  endPoint : String
  selectedMode : TravelMode
  travelTimes : Times
  routeLayer : Option (List (ℚ × ℚ))
deriving DecidableEq

/-- Observable steps of one `handleRouteCalculation` invocation, in
program order. -/
inductive Ev where
  | request (m : TravelMode)
  | response (m : TravelMode) (r : Option OsrmRoute)
  | publishTimes (t : Times)
  | toastErr (title description : String)
  | drawLayer (coords : List (ℚ × ℚ))
deriving DecidableEq, Repr

/-- The `for (const m of modes)` loop of `handleRouteCalculation`: each
mode's fetch is awaited in turn; a successful response records
`times[m] = duration` and, for the selected mode, replaces the drawn route
layer by the path with its coordinates swapped to `[lat, lng]`.  Returns the
accumulated table, the resulting layer, and the trace of the loop. -/
def planLoop (env : RouteEnv) (mode : TravelMode) :
    List TravelMode → Times → Option (List (ℚ × ℚ)) →
      Times × Option (List (ℚ × ℚ)) × List Ev
  | [], t, lay => (t, lay, [])
  | m :: ms, t, lay =>
      match env.fetch m with
      | none =>
          let rest := planLoop env mode ms t lay
          (rest.1, rest.2.1, .request m :: .response m none :: rest.2.2)
      | some r =>
          let t2 := t.set m r.duration
          if m = mode then
            let coords := r.geometry.map fun c => (c.2, c.1)
            let rest := planLoop env mode ms t2 (some coords)
            (rest.1, rest.2.1,
              .request m :: .response m (some r) :: .drawLayer coords :: rest.2.2)
          else
            let rest := planLoop env mode ms t2 lay
            (rest.1, rest.2.1, .request m :: .response m (some r) :: rest.2.2)

/-- The `handleRouteCalculation` handler.  It first selects the mode and
resets the published duration table to `{}`; a missing user location or
empty destination aborts with a toast, as does a destination geocoding to no
candidate; otherwise all three modes are fetched by the loop and the full
table is published once at the end. -/
def handleRouteCalculation (mode : TravelMode) (env : RouteEnv)
    (s : NavState) : NavState × List Ev :=
  let s1 := { s with selectedMode := mode, travelTimes := Times.empty }
  if s.userLocation = none ∨ s.endPoint = "" then
    (s1, [.publishTimes Times.empty,
          .toastErr "Route Planning"
            "Could not determine your location or destination."])
  else
    match env.geocodeResult with
    | none =>
        (s1, [.publishTimes Times.empty,
              .toastErr "Route Planning" "Could not find the destination."])
    | some _ =>
        let res := planLoop env mode [.car, .bike, .foot] Times.empty
          s.routeLayer
        ({ s1 with travelTimes := res.1, routeLayer := res.2.1 },
         .publishTimes Times.empty :: res.2.2 ++ [.publishTimes res.1])

/-! ### Trace classifiers and loop lemmas -/

/-- Whether an event is a route request or response. -/
def Ev.isReqResp : Ev → Bool
  | .request _ => true
  | .response _ _ => true
  | _ => false

/-- Whether an event publishes the duration table. -/
def Ev.isPublish : Ev → Bool
  | .publishTimes _ => true
  | _ => false

/-- Whether an event is a destructive toast. -/
def Ev.isToastErr : Ev → Bool
  | .toastErr _ _ => true
  | _ => false

/-- The duration table produced by the loop ignores the layer and is the
left fold of the per-mode assignments over the mode list. -/
theorem planLoop_times (env : RouteEnv) (mode : TravelMode) :
    ∀ (ms : List TravelMode) (t : Times) (lay : Option (List (ℚ × ℚ))),
      (planLoop env mode ms t lay).1 =
        ms.foldl (fun a m =>
          match env.fetch m with
          | some r => a.set m r.duration
          | none => a) t := by
  intro ms
  induction ms with
  | nil => intro t lay; rfl
  | cons m ms ih =>
      intro t lay
      cases h : env.fetch m with
      | none => simp [planLoop, h, ih]
      | some r =>
          by_cases hm : m = mode
          · subst hm
            simp [planLoop, h, ih]
          · simp [planLoop, h, hm, ih]

/-- The loop's trace consists of a request immediately followed by its
awaited response for each mode in list order, with draws interleaved; it
contains no publication and no toast. -/
theorem planLoop_trace (env : RouteEnv) (mode : TravelMode) :
    ∀ (ms : List TravelMode) (t : Times) (lay : Option (List (ℚ × ℚ))),
      ((planLoop env mode ms t lay).2.2).filter Ev.isReqResp =
          ms.foldr (fun m acc =>
            Ev.request m :: Ev.response m (env.fetch m) :: acc) [] ∧
        ((planLoop env mode ms t lay).2.2).filter Ev.isPublish = [] ∧
        ((planLoop env mode ms t lay).2.2).filter Ev.isToastErr = [] := by
  intro ms
  induction ms with
  | nil => intro t lay; exact ⟨rfl, rfl, rfl⟩
  | cons m ms ih =>
      intro t lay
      cases h : env.fetch m with
      | none =>
          refine ⟨?_, ?_, ?_⟩ <;>
            simp [planLoop, h, List.filter_cons, Ev.isReqResp, Ev.isPublish,
              Ev.isToastErr, (ih _ _).1, (ih _ _).2.1, (ih _ _).2.2]
      | some r =>
          by_cases hm : m = mode
          · subst hm
            refine ⟨?_, ?_, ?_⟩ <;>
              simp [planLoop, h, List.filter_cons, Ev.isReqResp,
                Ev.isPublish, Ev.isToastErr, (ih _ _).1, (ih _ _).2.1,
                (ih _ _).2.2]
          · refine ⟨?_, ?_, ?_⟩ <;>
              simp [planLoop, h, hm, List.filter_cons, Ev.isReqResp,
                Ev.isPublish, Ev.isToastErr, (ih _ _).1, (ih _ _).2.1,
                (ih _ _).2.2]

/-- The per-mode table entry after the full three-mode fold is exactly the
duration the fetch for that mode returned, or absent on failure. -/
theorem planTimes_get (env : RouteEnv) (m : TravelMode) :
    (([TravelMode.car, .bike, .foot]).foldl (fun a m' =>
        match env.fetch m' with
        | some r => a.set m' r.duration
        | none => a) Times.empty).get m =
      (env.fetch m).map OsrmRoute.duration := by
  cases m <;> cases h1 : env.fetch .car <;> cases h2 : env.fetch .bike <;>
    cases h3 : env.fetch .foot <;>
      simp [h1, h2, h3, Times.set, Times.get, Times.empty]

/-- Shape of a planning invocation whose preconditions hold and whose
destination geocodes: the loop runs over `['car', 'bike', 'foot']` and the
full table is published last. -/
theorem handleRouteCalculation_ok (mode : TravelMode) (env : RouteEnv)
    (s : NavState) (e : ℚ × ℚ) (hloc : s.userLocation ≠ none)
    (hep : s.endPoint ≠ "") (hgeo : env.geocodeResult = some e) :
    handleRouteCalculation mode env s =
      ({ s with
          selectedMode := mode
          travelTimes :=
            (planLoop env mode [.car, .bike, .foot] Times.empty
              s.routeLayer).1
          routeLayer :=
            (planLoop env mode [.car, .bike, .foot] Times.empty
              s.routeLayer).2.1 },
       .publishTimes Times.empty ::
        (planLoop env mode [.car, .bike, .foot] Times.empty
          s.routeLayer).2.2 ++
        [.publishTimes
          (planLoop env mode [.car, .bike, .foot] Times.empty
            s.routeLayer).1]) := by
  have hcond : ¬ (s.userLocation = none ∨ s.endPoint = "") := by
    rintro (hn | hn)
    · exact hloc hn
    · exact hep hn
  simp only [handleRouteCalculation, if_neg hcond, hgeo]

/-! ## Claim C6: unresolvable destination -/

/-- Claim C6.  When the destination text geocodes to no candidate the
handler reports the error toast and aborts: the trace contains no per-mode
request, the previously drawn route layer is untouched, and the published
duration table ends empty. -/
theorem plan_geocode_failure (mode : TravelMode) (env : RouteEnv)
    (s : NavState) (hloc : s.userLocation ≠ none) (hep : s.endPoint ≠ "")
    (hgeo : env.geocodeResult = none) :
    (handleRouteCalculation mode env s).1.routeLayer = s.routeLayer ∧
      (handleRouteCalculation mode env s).1.travelTimes = Times.empty ∧
      (handleRouteCalculation mode env s).2 =
        [.publishTimes Times.empty,
         .toastErr "Route Planning" "Could not find the destination."] := by
  have hcond : ¬ (s.userLocation = none ∨ s.endPoint = "") := by
    rintro (hn | hn)
    · exact hloc hn
    · exact hep hn
  simp only [handleRouteCalculation, if_neg hcond, hgeo]
  refine ⟨?_, ?_, ?_⟩ <;> trivial

/-- Claim C6, witness: with a previously drawn layer and a previously
published car duration, a failing geocode keeps the layer, empties the
table, and issues no request. -/
theorem plan_geocode_failure_witness :
    (handleRouteCalculation .foot
        { geocodeResult := none, fetch := fun _ => none }
        { userLocation := some (0, 0), endPoint := "Nowhere",
          selectedMode := .foot,
          travelTimes := { car := some 60, bike := none, foot := none },
          routeLayer := some [(5, 5)] }).1.routeLayer = some [(5, 5)] ∧
      (handleRouteCalculation .foot
        { geocodeResult := none, fetch := fun _ => none }
        { userLocation := some (0, 0), endPoint := "Nowhere",
          selectedMode := .foot,
          travelTimes := { car := some 60, bike := none, foot := none },
          routeLayer := some [(5, 5)] }).2 =
        [.publishTimes Times.empty,
         .toastErr "Route Planning" "Could not find the destination."] := by
  have h := plan_geocode_failure .foot
    { geocodeResult := none, fetch := fun _ => none }
    { userLocation := some (0, 0), endPoint := "Nowhere",
      selectedMode := .foot,
      travelTimes := { car := some 60, bike := none, foot := none },
      routeLayer := some [(5, 5)] }
    (by decide) (by decide) rfl
  exact ⟨h.1, h.2.2⟩

/-! ## Claim C7: one mode failing is isolated -/

/-- Claim C7.  If exactly one mode's route fetch fails, the final duration
table still holds the fetched durations of the two other modes, the failing
mode is simply absent from it, and the trace contains no error toast. -/
theorem plan_mode_failure_isolated (mode mf : TravelMode) (env : RouteEnv)
    (s : NavState) (u e : ℚ × ℚ)
    (hloc : s.userLocation = some u) (hep : s.endPoint ≠ "")
    (hgeo : env.geocodeResult = some e) (hfail : env.fetch mf = none)
    (hok : ∀ m, m ≠ mf → (env.fetch m).isSome) :
    (handleRouteCalculation mode env s).1.travelTimes.get mf = none ∧
      (∀ m, m ≠ mf →
        (handleRouteCalculation mode env s).1.travelTimes.get m =
            (env.fetch m).map OsrmRoute.duration ∧
          ((handleRouteCalculation mode env s).1.travelTimes.get m).isSome) ∧
      ((handleRouteCalculation mode env s).2).filter Ev.isToastErr = [] := by
  have hloc' : s.userLocation ≠ none := by rw [hloc]; exact fun hn => by cases hn
  have hshape := handleRouteCalculation_ok mode env s e hloc' hep hgeo
  have htimes : (handleRouteCalculation mode env s).1.travelTimes =
      (planLoop env mode [.car, .bike, .foot] Times.empty s.routeLayer).1 := by
    rw [hshape]
  have hfold := planLoop_times env mode [.car, .bike, .foot] Times.empty
    s.routeLayer
  refine ⟨?_, ?_, ?_⟩
  · rw [htimes, hfold, planTimes_get, hfail]
    rfl
  · intro m hm
    have hg : (handleRouteCalculation mode env s).1.travelTimes.get m =
        (env.fetch m).map OsrmRoute.duration := by
      rw [htimes, hfold, planTimes_get]
    refine ⟨hg, ?_⟩
    rw [hg]
    have hsome := hok m hm
    cases hfm : env.fetch m with
    | none => rw [hfm] at hsome; cases hsome
    | some r => rfl
  · rw [hshape]
    simp [List.filter_cons, List.filter_append, Ev.isToastErr,
      (planLoop_trace env mode [.car, .bike, .foot] Times.empty
        s.routeLayer).2.2]

/-- Claim C7, witness: the bike fetch fails while car and foot succeed; the
table holds the car and foot durations, bike is absent, and no error toast
is raised. -/
theorem plan_mode_failure_isolated_witness :
    (handleRouteCalculation .foot
        { geocodeResult := some (1, 1),
          fetch := fun m =>
            match m with
            | .car => some { duration := 100, geometry := [(1, 1), (2, 2)] }
            | .bike => none
            | .foot => some { duration := 300, geometry := [(1, 1), (2, 2)] } }
        { userLocation := some (0, 0), endPoint := "Berlin",
          selectedMode := .car, travelTimes := Times.empty,
          routeLayer := none }).1.travelTimes.get .bike = none ∧
      (handleRouteCalculation .foot
        { geocodeResult := some (1, 1),
          fetch := fun m =>
            match m with
            | .car => some { duration := 100, geometry := [(1, 1), (2, 2)] }
            | .bike => none
            | .foot => some { duration := 300, geometry := [(1, 1), (2, 2)] } }
        { userLocation := some (0, 0), endPoint := "Berlin",
          selectedMode := .car, travelTimes := Times.empty,
          routeLayer := none }).1.travelTimes.get .car = some 100 ∧
      (handleRouteCalculation .foot
        { geocodeResult := some (1, 1),
          fetch := fun m =>
            match m with
            | .car => some { duration := 100, geometry := [(1, 1), (2, 2)] }
            | .bike => none
            | .foot => some { duration := 300, geometry := [(1, 1), (2, 2)] } }
        { userLocation := some (0, 0), endPoint := "Berlin",
          selectedMode := .car, travelTimes := Times.empty,
          routeLayer := none }).1.travelTimes.get .foot = some 300 := by
  have h := plan_mode_failure_isolated .foot .bike
    { geocodeResult := some (1, 1),
      fetch := fun m =>
        match m with
        | .car => some { duration := 100, geometry := [(1, 1), (2, 2)] }
        | .bike => none
        | .foot => some { duration := 300, geometry := [(1, 1), (2, 2)] } }
    { userLocation := some (0, 0), endPoint := "Berlin",
      selectedMode := .car, travelTimes := Times.empty, routeLayer := none }
    (0, 0) (1, 1) rfl (by decide) rfl rfl
    (by intro m hm; cases m <;> first | rfl | exact absurd rfl hm)
  refine ⟨h.1, ?_, ?_⟩
  · exact (h.2.1 .car (by decide)).1
  · exact (h.2.1 .foot (by decide)).1

/-! ## Claim C9: issuance order and publication of the duration table -/

/-- Scan a trace left to right; reports false as soon as a request event is
seen after any response event has already occurred. -/
def noReqAfterRespAux : List Ev → Bool → Bool
  | [], _ => true
  | Ev.request _ :: rest, seenResp =>
      if seenResp then false else noReqAfterRespAux rest seenResp
  | Ev.response _ _ :: rest, _ => noReqAfterRespAux rest true
  | _ :: rest, seenResp => noReqAfterRespAux rest seenResp

/-- Concurrent issuance of the route requests: every request in the trace is
issued before any response is observed.  A sequential `await` loop, which
only issues the next request after the previous response, violates this. -/
def concurrentIssuance (evs : List Ev) : Bool :=
  noReqAfterRespAux evs false

/-- The number of route fetches in the trace that resolved with a route. -/
def successCount (evs : List Ev) : ℕ :=
  (evs.filter fun e =>
    match e with
    | Ev.response _ (some _) => true
    | _ => false).length

/-- The number of publications of a non-empty duration table. -/
def nonemptyPublishCount (evs : List Ev) : ℕ :=
  (evs.filter fun e =>
    match e with
    | Ev.publishTimes t => decide (t ≠ Times.empty)
    | _ => false).length

/-- Formalization of claim C9 on a planning trace: the per-mode requests are
all issued before any response arrives (independent concurrent calls, not
sequential), and each resolving mode's duration becomes observable through
its own publication of the table, so the trace publishes a non-empty table
at least once per resolved fetch (no join barrier). -/
def ConcurrentNoJoinBarrier (evs : List Ev) : Prop :=
  concurrentIssuance evs = true ∧
    successCount evs ≤ nonemptyPublishCount evs

/-- Claim C9, counterexample.  On an invocation in which all three fetches
resolve, the trace awaits each response before issuing the next request and
publishes the non-empty table exactly once, after all responses: the claimed
concurrency and barrier-free publication both fail. -/
theorem plan_not_concurrent :
    ¬ ConcurrentNoJoinBarrier
        (handleRouteCalculation .foot
          { geocodeResult := some (1, 1),
            fetch := fun _ => some { duration := 100, geometry := [] } }
          { userLocation := some (0, 0), endPoint := "Berlin",
            selectedMode := .foot, travelTimes := Times.empty,
            routeLayer := none }).2 := by
  rintro ⟨h1, _⟩
  have hfalse : concurrentIssuance
      (handleRouteCalculation .foot
        { geocodeResult := some (1, 1),
          fetch := fun _ => some { duration := 100, geometry := [] } }
        { userLocation := some (0, 0), endPoint := "Berlin",
          selectedMode := .foot, travelTimes := Times.empty,
          routeLayer := none }).2 = false := by rfl
  exact Bool.false_ne_true (hfalse.symm.trans h1)

/-- Claim C9, amended.  Within one planning operation the three per-mode
requests are issued sequentially — each request appears in the trace only
after the previous mode's response has been awaited, in the fixed order car,
bike, foot — and the duration table is published exactly twice: the empty
reset at entry and the complete table once, after all three responses, as
the final step of the operation (a join barrier for publication). -/
theorem plan_sequential_barrier (mode : TravelMode) (env : RouteEnv)
    (s : NavState) (u e : ℚ × ℚ)
    (hloc : s.userLocation = some u) (hep : s.endPoint ≠ "")
    (hgeo : env.geocodeResult = some e) :
    ((handleRouteCalculation mode env s).2).filter Ev.isReqResp =
        [.request .car, .response .car (env.fetch .car),
         .request .bike, .response .bike (env.fetch .bike),
         .request .foot, .response .foot (env.fetch .foot)] ∧
      ((handleRouteCalculation mode env s).2).filter Ev.isPublish =
        [.publishTimes Times.empty,
         .publishTimes (handleRouteCalculation mode env s).1.travelTimes] ∧
      ((handleRouteCalculation mode env s).2).getLast? =
        some (.publishTimes
          (handleRouteCalculation mode env s).1.travelTimes) := by
  have hloc' : s.userLocation ≠ none := by
    rw [hloc]; exact fun hn => by cases hn
  have hshape := handleRouteCalculation_ok mode env s e hloc' hep hgeo
  have htr := planLoop_trace env mode [.car, .bike, .foot] Times.empty
    s.routeLayer
  refine ⟨?_, ?_, ?_⟩
  · rw [hshape]
    simp [List.filter_cons, List.filter_append, Ev.isReqResp, Ev.isPublish,
      htr.1]
  · rw [hshape]
    simp [List.filter_cons, List.filter_append, Ev.isReqResp, Ev.isPublish,
      htr.2.1]
  · rw [hshape]
    rw [show (Ev.publishTimes Times.empty ::
        (planLoop env mode [.car, .bike, .foot] Times.empty
          s.routeLayer).2.2 ++
        [Ev.publishTimes
          (planLoop env mode [.car, .bike, .foot] Times.empty
            s.routeLayer).1]) =
      (Ev.publishTimes Times.empty ::
        (planLoop env mode [.car, .bike, .foot] Times.empty
          s.routeLayer).2.2) ++
        [Ev.publishTimes
          (planLoop env mode [.car, .bike, .foot] Times.empty
            s.routeLayer).1] from by simp]
    rw [List.getLast?_concat]

/-- Claim C9 amended, witness: with every fetch succeeding, the filtered
trace of a concrete invocation shows the sequential request/response pairs
and the single final publication. -/
theorem plan_sequential_barrier_witness :
    ((handleRouteCalculation .foot
        { geocodeResult := some (1, 1),
          fetch := fun _ => some { duration := 100, geometry := [] } }
        { userLocation := some (0, 0), endPoint := "Paris",
          selectedMode := .foot, travelTimes := Times.empty,
          routeLayer := none }).2).filter Ev.isReqResp =
      [.request .car, .response .car (some { duration := 100, geometry := [] }),
       .request .bike, .response .bike (some { duration := 100, geometry := [] }),
       .request .foot, .response .foot (some { duration := 100, geometry := [] })] := by
  have h := plan_sequential_barrier .foot
    { geocodeResult := some (1, 1),
      fetch := fun _ => some { duration := 100, geometry := [] } }
    { userLocation := some (0, 0), endPoint := "Paris",
      selectedMode := .foot, travelTimes := Times.empty, routeLayer := none }
    (0, 0) (1, 1) rfl (by decide) rfl
  exact h.1

/-! ## Claim C10: the table reset precedes the precondition checks -/

/-- Claim C10.  Every invocation publishes the empty duration table as its
very first step, so a failing invocation — missing user position, empty
destination text, or unresolvable destination — leaves the published table
empty while the previously drawn route layer is kept. -/
theorem plan_failure_resets (mode : TravelMode) (env : RouteEnv)
    (s : NavState)
    (h : s.userLocation = none ∨ s.endPoint = "" ∨ env.geocodeResult = none) :
    (handleRouteCalculation mode env s).1.travelTimes = Times.empty ∧
      (handleRouteCalculation mode env s).1.routeLayer = s.routeLayer ∧
      ((handleRouteCalculation mode env s).2).head? =
        some (.publishTimes Times.empty) := by
  by_cases hc : s.userLocation = none ∨ s.endPoint = ""
  · simp only [handleRouteCalculation, if_pos hc]
    refine ⟨?_, ?_, ?_⟩ <;> trivial
  · have hgeo : env.geocodeResult = none := by
      rcases h with h | h | h
      · exact absurd (Or.inl h) hc
      · exact absurd (Or.inr h) hc
      · exact h
    simp only [handleRouteCalculation, if_neg hc, hgeo]
    refine ⟨?_, ?_, ?_⟩ <;> trivial

/-- Claim C10, witness: an invocation with no user position erases the
previously displayed car duration but keeps the drawn layer, and its first
step publishes the empty table. -/
theorem plan_failure_resets_witness :
    (handleRouteCalculation .car
        { geocodeResult := some (1, 1), fetch := fun _ => none }
        { userLocation := none, endPoint := "Berlin", selectedMode := .car,
          travelTimes := { car := some 60, bike := none, foot := none },
          routeLayer := some [(5, 5)] }).1.travelTimes = Times.empty ∧
      (handleRouteCalculation .car
        { geocodeResult := some (1, 1), fetch := fun _ => none }
        { userLocation := none, endPoint := "Berlin", selectedMode := .car,
          travelTimes := { car := some 60, bike := none, foot := none },
          routeLayer := some [(5, 5)] }).1.routeLayer = some [(5, 5)] := by
  have h := plan_failure_resets .car
    { geocodeResult := some (1, 1), fetch := fun _ => none }
    { userLocation := none, endPoint := "Berlin", selectedMode := .car,
      travelTimes := { car := some 60, bike := none, foot := none },
      routeLayer := some [(5, 5)] }
    (Or.inl rfl)
  exact ⟨h.1, h.2.1⟩

end Neriah
